import Mathlib

/-!
Shallow embedding of `superpythoncoder.py`: a bounded generate → extract →
execute → feedback retry loop driven by an external generation service.

String primitives of the Python runtime (`str.split`, `str.strip`,
`str.lower`, the `in` operator, slicing) are re-implemented structurally over
`String.data` so that every definition evaluates inside the kernel.

The external world (the chat-completions call, the behaviour of `exec` on a
given piece of generated code, and the out-of-scope Black reformatter) is a
parameter `Env`; the session loop `main` / `loop` is a pure function of it.
-/

namespace SuperPythonCoder

/-- ASCII whitespace as recognised by Python's `str.strip` / `str.isspace`. -/
def isPySpace (c : Char) : Bool :=
  c = ' ' || c = '\t' || c = '\n' || c = '\r' || c = '\x0b' || c = '\x0c'

/-- Worker for `pySplit`: scan left to right, splitting at each leftmost,
non-overlapping occurrence of `sep`. `fuel` bounds the recursion and is
always called with at least the length of the remaining input, so the
fuel-exhausted arm is never reached for the top-level call. -/
def splitAux (sep : List Char) : Nat → List Char → List Char → List (List Char)
  | _, acc, [] => [acc.reverse]
  | 0, acc, s => [acc.reverse ++ s]
  | fuel + 1, acc, c :: rest =>
      if sep.isPrefixOf (c :: rest) then
        acc.reverse :: splitAux sep fuel [] (rest.drop (sep.length - 1))
      else
        splitAux sep fuel (c :: acc) rest

/-- Python `s.split(sep)` for a nonempty separator: the list of segments
between consecutive non-overlapping occurrences of `sep`, scanned from the
left; `n` occurrences yield `n + 1` segments. -/
def pySplit (s sep : String) : List String :=
  (splitAux sep.data s.data.length [] s.data).map String.mk

/-- Python `s.strip()`: remove leading and trailing whitespace. -/
def pyStrip (s : String) : String :=
  ⟨((s.data.dropWhile isPySpace).reverse.dropWhile isPySpace).reverse⟩

/-- Python `s.lower()` (ASCII case folding, as used on error messages). -/
def pyLower (s : String) : String :=
  ⟨s.data.map Char.toLower⟩

/-- Python `s[:n]` for a nonnegative bound. -/
def pySlice (s : String) (n : Nat) : String :=
  ⟨s.data.take n⟩

/-- Python `sub in s` for a nonempty `sub`, expressed through the same split
primitive: the needle occurs iff splitting on it yields at least 2 parts. -/
def pyContains (s sub : String) : Bool :=
  2 ≤ (pySplit s sub).length

/-- `sub` occurs verbatim (as an exact contiguous substring) inside `s`. -/
def containsVerbatim (s sub : String) : Prop :=
  ∃ pre post, s = pre ++ sub ++ post

/-- The auth/key test of `code_from_openai`'s except clause (lines 91-94):
`"401" in msg or "invalid_api_key" in msg or "incorrect api key" in msg`
applied to `str(e).lower()`. -/
def isAuthError (msg : String) : Bool :=
  let m := pyLower msg
  pyContains m "401" || pyContains m "invalid_api_key" || pyContains m "incorrect api key"

/-- The `SystemExit` remediation text raised on an auth failure (lines 95-100). -/
def authAbortMessage : String :=
  "❌ Invalid OPENAI_API_KEY (401).\n" ++
  "Fix your .env file and try again.\n" ++
  "Example:\n" ++
  "OPENAI_API_KEY=your_real_key_here"

/-- Prefix of the `ValueError` raised when the response lacks `@@D` wrapping
(line 107). -/
def extractionErrorPrefix : String :=
  "Model did not wrap code with @@D. Got:\n"

/-- Result of the extraction step: the code, or the `str` of the raised
`ValueError`. -/
inductive ExtractResult where
  | ok (code : String)
  | error (diagnostic : String)
deriving DecidableEq, Repr

/-- Lines 104-108: split the response on the literal `@@D`, require at least
3 segments, return the middle one stripped; otherwise raise a `ValueError`
carrying the first 500 characters of the raw response. -/
def extract (content : String) : ExtractResult :=
  let parts := pySplit content "@@D"
  if parts.length < 3 then
    .error (extractionErrorPrefix ++ pySlice content 500)
  else
    .ok (pyStrip (parts.get! 1))

/-- Outcome of the chat-completions call (line 82): either it returns a
response whose message content is `content` (`none` models a null content
field, replaced by `""` at line 104), or it raises an exception whose
`str` is `msg`. -/
inductive ServiceOutcome where
  | returns (content : Option String)
  | raises (msg : String)
deriving DecidableEq, Repr

/-- Result of `code_from_openai`: the extracted code, a raised `SystemExit`
(fatal auth error), or a raised retryable exception carrying its `str`
(a re-raised service error or the extraction `ValueError`). -/
inductive GenResult where
  | ok (code : String)
  | fatal (msg : String)
  | retryable (msg : String)
deriving DecidableEq, Repr

/-- Lines 71-108, with the service call's behaviour passed in: an auth-like
error message becomes a `SystemExit`, any other raised error is re-raised,
and a returned response goes through delimiter extraction. -/
def code_from_openai (svc : ServiceOutcome) : GenResult :=
  match svc with
  | .raises msg =>
      if isAuthError msg then .fatal authAbortMessage else .retryable msg
  | .returns content =>
      match extract (content.getD "") with
      | .error d => .retryable d
      | .ok code => .ok code

/-- Behaviour of `exec`-ing one piece of generated code: it runs to
completion, raises an `Exception` whose `traceback.format_exc()` text is
`tb`, or raises a `BaseException` outside the `Exception` hierarchy
(e.g. `SystemExit` from `exit()`, or `KeyboardInterrupt`) described by
`info`. -/
inductive ExecBehaviour where
  | completes
  | raisesExc (tb : String)
  | raisesBase (info : String)
deriving DecidableEq, Repr

/-- `run_generated_code` (lines 119-133): returns `some (ok, err)` when the
`try`/`except Exception` block returns, `none` when the raised exception is
outside `Exception` and propagates out of the function. -/
def run_generated_code (b : ExecBehaviour) : Option (Bool × String) :=
  match b with
  | .completes => some (true, "")
  | .raisesExc tb => some (false, tb)
  | .raisesBase _ => none

/-- The environment a session runs against: what the service call does at
attempt `i` on a given request, what executing a given code at attempt `i`
does, and the out-of-scope Black reformatting applied to the winning code
(lines 185-188; the `NothingChanged` fallback to the unformatted code is
folded into `fmt`). -/
structure Env where
  svc : Nat → String → ServiceOutcome
  exec : Nat → String → ExecBehaviour
  fmt : String → String

/-- The feedback request built at lines 149-155 from `errors[-1]` and the
last extracted code. -/
def composeFeedback (lastError prevCode : String) : String :=
  "I ran your previous code and got an error.\n\n" ++
  "ERROR:\n" ++ lastError ++ "\n\n" ++
  "CODE I RAN:\n" ++ prevCode ++ "\n\n" ++
  "Please return the FULL fixed code with assert tests.\n" ++
  "Remember: wrap code with @@D."

/-- The corrective instruction embedded at the end of every feedback request. -/
def fixInstruction : String :=
  "Please return the FULL fixed code with assert tests.\n" ++
  "Remember: wrap code with @@D."

/-- The initial request built at lines 157-161. -/
def composeInitial (program : String) : String :=
  "Write this program in Python: " ++ program ++ "\n" ++
  "Include assert tests with 5 different inputs.\n" ++
  "Wrap code with @@D."

/-- The request composed at the top of a loop iteration (lines 148-161):
feedback from `errors[-1]` and the last extracted code when `errors` is
nonempty, the initial request otherwise. -/
def requestFor (program : String) (errors : List String) (runCode : String) : String :=
  if errors.isEmpty then composeInitial program
  else composeFeedback (errors.getLastD "") runCode

/-- How one recorded attempt ended. -/
inductive AttemptResult where
  | genFatal (msg : String)
  | genRetry (msg : String)
  | execFail (code tb : String)
  | execOk (code : String)
  | execPropagate (code info : String)
deriving DecidableEq, Repr

/-- One request/extract/execute cycle of the loop: the request sent and how
the attempt ended. -/
structure Attempt where
  requestText : String
  result : AttemptResult
deriving DecidableEq, Repr

/-- The diagnostic text an attempt appends to `errors`, when it appends one:
the `str` of the generation/extraction exception, or the execution
traceback. -/
def diagOf : AttemptResult → Option String
  | .genRetry msg => some msg
  | .execFail _ tb => some tb
  | _ => none

/-- Whether the executor ran during the attempt. -/
def executedCode : AttemptResult → Bool
  | .execFail _ _ => true
  | .execOk _ => true
  | .execPropagate _ _ => true
  | _ => false

/-- The code an attempt extracted, when its extraction succeeded (these are
exactly the attempts that overwrite the `run_code` variable at line 166). -/
def codeOf : AttemptResult → Option String
  | .execFail code _ => some code
  | .execOk code => some code
  | .execPropagate code _ => some code
  | _ => none

/-- The value of the `run_code` variable after the recorded attempts `hist`:
the code extracted by the most recent attempt whose extraction succeeded, or
the fallback `d` (the session starts with `run_code = ""`, line 143). -/
def lastCode (hist : List Attempt) (d : String) : String :=
  (hist.filterMap (fun a => codeOf a.result)).getLastD d

/-- Terminal outcome of a session. -/
inductive Outcome where
  | success
  | exhausted
  | fatalAbort (msg : String)
  | propagated (info : String)
deriving DecidableEq, Repr

/-- The total-failure message printed at line 207 when the budget runs out. -/
def failureMessage : String :=
  "Code generation FAILED after 5 attempts."

/-- Observable result of a session: terminal outcome, the recorded attempt
history, the final `errors` list and `run_code` variable, the contents of
the `code_generate.py` artifact (`none` = absent), and the final console
message if the code reached line 207. -/
structure SessionResult where
  outcome : Outcome
  history : List Attempt
  errors : List String
  runCode : String
  artifact : Option String
  finalMessage : Option String
deriving DecidableEq, Repr

/-- The `for _ in range(5)` body of `main` (lines 147-204), as a recursion on
the remaining budget `fuel`, with the loop state passed explicitly:
`i` the 0-based attempt index, `errors` and `runCode` the Python locals,
`artifact` the artifact file contents, `hist` the attempts so far.
Each iteration composes a request, calls the service; a fatal auth error
raises `SystemExit` (lines 167-168), a retryable error is recorded and the
loop continues (lines 169-172); otherwise the code is written to the
artifact and executed: on success it is reformatted, saved and the loop
breaks (lines 182-197); on a caught failure the traceback is recorded and
the artifact removed (lines 198-204); an uncaught `BaseException`
propagates out of `main`. Exhausting the budget reaches line 207. -/
def loop (env : Env) (program : String) :
    Nat → Nat → List String → String → Option String → List Attempt → SessionResult
  | 0, _, errors, runCode, artifact, hist =>
      ⟨.exhausted, hist, errors, runCode, artifact, some failureMessage⟩
  | fuel + 1, i, errors, runCode, artifact, hist =>
      let request := requestFor program errors runCode
      match code_from_openai (env.svc i request) with
      | .fatal msg =>
          ⟨.fatalAbort msg, hist ++ [⟨request, .genFatal msg⟩], errors, runCode, artifact, none⟩
      | .retryable msg =>
          loop env program fuel (i + 1) (errors ++ [msg]) runCode artifact
            (hist ++ [⟨request, .genRetry msg⟩])
      | .ok code =>
          match env.exec i code with
          | .completes =>
              ⟨.success, hist ++ [⟨request, .execOk code⟩], errors, code,
                some (env.fmt code), none⟩
          | .raisesExc tb =>
              loop env program fuel (i + 1) (errors ++ [tb]) code none
                (hist ++ [⟨request, .execFail code tb⟩])
          | .raisesBase info =>
              ⟨.propagated info, hist ++ [⟨request, .execPropagate code info⟩],
                errors, code, some code, none⟩

/-- `main` (lines 136-207) for a given program description: five attempts,
starting from empty `errors`, empty `run_code`, no artifact. -/
def main (env : Env) (program : String) : SessionResult :=
  loop env program 5 0 [] "" none []

/-! ### Step equations of the loop -/

theorem loop_zero (env : Env) (program : String) (i : Nat) (errors : List String)
    (runCode : String) (artifact : Option String) (hist : List Attempt) :
    loop env program 0 i errors runCode artifact hist
      = ⟨.exhausted, hist, errors, runCode, artifact, some failureMessage⟩ := rfl

theorem loop_succ_fatal (env : Env) (program : String) (fuel i : Nat)
    (errors : List String) (runCode : String) (artifact : Option String)
    (hist : List Attempt) (msg : String)
    (h : code_from_openai (env.svc i (requestFor program errors runCode)) = .fatal msg) :
    loop env program (fuel + 1) i errors runCode artifact hist
      = ⟨.fatalAbort msg, hist ++ [⟨requestFor program errors runCode, .genFatal msg⟩],
          errors, runCode, artifact, none⟩ := by
  simp only [loop, h]

theorem loop_succ_retry (env : Env) (program : String) (fuel i : Nat)
    (errors : List String) (runCode : String) (artifact : Option String)
    (hist : List Attempt) (msg : String)
    (h : code_from_openai (env.svc i (requestFor program errors runCode)) = .retryable msg) :
    loop env program (fuel + 1) i errors runCode artifact hist
      = loop env program fuel (i + 1) (errors ++ [msg]) runCode artifact
          (hist ++ [⟨requestFor program errors runCode, .genRetry msg⟩]) := by
  simp only [loop, h]

theorem loop_succ_complete (env : Env) (program : String) (fuel i : Nat)
    (errors : List String) (runCode : String) (artifact : Option String)
    (hist : List Attempt) (code : String)
    (h : code_from_openai (env.svc i (requestFor program errors runCode)) = .ok code)
    (hex : env.exec i code = .completes) :
    loop env program (fuel + 1) i errors runCode artifact hist
      = ⟨.success, hist ++ [⟨requestFor program errors runCode, .execOk code⟩],
          errors, code, some (env.fmt code), none⟩ := by
  simp only [loop, h, hex]

theorem loop_succ_execFail (env : Env) (program : String) (fuel i : Nat)
    (errors : List String) (runCode : String) (artifact : Option String)
    (hist : List Attempt) (code tb : String)
    (h : code_from_openai (env.svc i (requestFor program errors runCode)) = .ok code)
    (hex : env.exec i code = .raisesExc tb) :
    loop env program (fuel + 1) i errors runCode artifact hist
      = loop env program fuel (i + 1) (errors ++ [tb]) code none
          (hist ++ [⟨requestFor program errors runCode, .execFail code tb⟩]) := by
  simp only [loop, h, hex]

theorem loop_succ_base (env : Env) (program : String) (fuel i : Nat)
    (errors : List String) (runCode : String) (artifact : Option String)
    (hist : List Attempt) (code info : String)
    (h : code_from_openai (env.svc i (requestFor program errors runCode)) = .ok code)
    (hex : env.exec i code = .raisesBase info) :
    loop env program (fuel + 1) i errors runCode artifact hist
      = ⟨.propagated info,
          hist ++ [⟨requestFor program errors runCode, .execPropagate code info⟩],
          errors, code, some code, none⟩ := by
  simp only [loop, h, hex]

/-! ### Structural lemmas about the loop -/

theorem loop_history_prefix (env : Env) (program : String) :
    ∀ fuel i errors runCode artifact hist,
      ∃ t, (loop env program fuel i errors runCode artifact hist).history = hist ++ t := by
  intro fuel
  induction fuel with
  | zero =>
      intro i errors rc art hist
      exact ⟨[], by simp [loop_zero]⟩
  | succ fuel ih =>
      intro i errors rc art hist
      rcases hsvc : code_from_openai (env.svc i (requestFor program errors rc)) with
        code | msg | msg
      · rcases hex : env.exec i code with _ | tb | info
        · rw [loop_succ_complete env program fuel i errors rc art hist code hsvc hex]
          exact ⟨_, rfl⟩
        · rw [loop_succ_execFail env program fuel i errors rc art hist code tb hsvc hex]
          obtain ⟨t, ht⟩ := ih (i + 1) (errors ++ [tb]) code none
            (hist ++ [⟨requestFor program errors rc, .execFail code tb⟩])
          exact ⟨⟨requestFor program errors rc, .execFail code tb⟩ :: t, by rw [ht]; simp⟩
        · rw [loop_succ_base env program fuel i errors rc art hist code info hsvc hex]
          exact ⟨_, rfl⟩
      · rw [loop_succ_fatal env program fuel i errors rc art hist msg hsvc]
        exact ⟨_, rfl⟩
      · rw [loop_succ_retry env program fuel i errors rc art hist msg hsvc]
        obtain ⟨t, ht⟩ := ih (i + 1) (errors ++ [msg]) rc art
          (hist ++ [⟨requestFor program errors rc, .genRetry msg⟩])
        exact ⟨⟨requestFor program errors rc, .genRetry msg⟩ :: t, by rw [ht]; simp⟩

theorem loop_history_length (env : Env) (program : String) :
    ∀ fuel i errors runCode artifact hist,
      (loop env program fuel i errors runCode artifact hist).history.length
        ≤ hist.length + fuel := by
  intro fuel
  induction fuel with
  | zero =>
      intro i errors rc art hist
      simp [loop_zero]
  | succ fuel ih =>
      intro i errors rc art hist
      rcases hsvc : code_from_openai (env.svc i (requestFor program errors rc)) with
        code | msg | msg
      · rcases hex : env.exec i code with _ | tb | info
        · rw [loop_succ_complete env program fuel i errors rc art hist code hsvc hex]
          simp
        · rw [loop_succ_execFail env program fuel i errors rc art hist code tb hsvc hex]
          have h := ih (i + 1) (errors ++ [tb]) code none
            (hist ++ [⟨requestFor program errors rc, .execFail code tb⟩])
          simp at h ⊢; omega
        · rw [loop_succ_base env program fuel i errors rc art hist code info hsvc hex]
          simp
      · rw [loop_succ_fatal env program fuel i errors rc art hist msg hsvc]
        simp
      · rw [loop_succ_retry env program fuel i errors rc art hist msg hsvc]
        have h := ih (i + 1) (errors ++ [msg]) rc art
          (hist ++ [⟨requestFor program errors rc, .genRetry msg⟩])
        simp at h ⊢; omega

theorem requestFor_snoc (program : String) (errors : List String) (msg runCode : String) :
    requestFor program (errors ++ [msg]) runCode = composeFeedback msg runCode := by
  simp [requestFor, List.getLastD_concat]

theorem composeFeedback_contains_error (d c : String) :
    containsVerbatim (composeFeedback d c) d :=
  ⟨"I ran your previous code and got an error.\n\n" ++ "ERROR:\n",
   "\n\n" ++ ("CODE I RAN:\n" ++ (c ++ ("\n\n" ++
     ("Please return the FULL fixed code with assert tests.\n" ++
      "Remember: wrap code with @@D.")))),
   by apply String.ext; simp [composeFeedback, String.data_append]⟩

theorem composeFeedback_contains_code (d c : String) :
    containsVerbatim (composeFeedback d c) c :=
  ⟨"I ran your previous code and got an error.\n\n" ++ ("ERROR:\n" ++ (d ++ ("\n\n" ++
     "CODE I RAN:\n"))),
   "\n\n" ++
     ("Please return the FULL fixed code with assert tests.\n" ++
      "Remember: wrap code with @@D."),
   by apply String.ext; simp [composeFeedback, String.data_append]⟩

theorem composeFeedback_contains_instruction (d c : String) :
    containsVerbatim (composeFeedback d c) fixInstruction :=
  ⟨"I ran your previous code and got an error.\n\n" ++ ("ERROR:\n" ++ (d ++ ("\n\n" ++
     ("CODE I RAN:\n" ++ (c ++ "\n\n"))))),
   "",
   by
     apply String.ext
     have hemp : ("" : String).data = [] := rfl
     simp [composeFeedback, fixInstruction, String.data_append, hemp]⟩

/-- The first attempt recorded past `hist` by a run of the loop carries the
request composed from the state the loop was entered with. -/
theorem loop_new_head_request (env : Env) (program : String) :
    ∀ fuel i errors runCode artifact hist b l₂,
      (loop env program fuel i errors runCode artifact hist).history = hist ++ b :: l₂ →
      b.requestText = requestFor program errors runCode := by
  intro fuel i errors rc art hist b l₂ h
  cases fuel with
  | zero =>
      rw [loop_zero] at h
      have := congrArg List.length h
      simp at this
  | succ fuel =>
      rcases hsvc : code_from_openai (env.svc i (requestFor program errors rc)) with
        code | msg | msg
      · rcases hex : env.exec i code with _ | tb | info
        · rw [loop_succ_complete env program fuel i errors rc art hist code hsvc hex] at h
          simp only at h
          have h2 := List.append_cancel_left h
          rw [← ((List.cons.injEq ..).mp h2).1]
        · rw [loop_succ_execFail env program fuel i errors rc art hist code tb hsvc hex] at h
          obtain ⟨t, ht⟩ := loop_history_prefix env program fuel (i + 1) (errors ++ [tb])
            code none (hist ++ [⟨requestFor program errors rc, .execFail code tb⟩])
          rw [ht] at h
          rw [List.append_assoc] at h
          have h2 := List.append_cancel_left h
          simp only [List.singleton_append] at h2
          rw [← ((List.cons.injEq ..).mp h2).1]
        · rw [loop_succ_base env program fuel i errors rc art hist code info hsvc hex] at h
          simp only at h
          have h2 := List.append_cancel_left h
          rw [← ((List.cons.injEq ..).mp h2).1]
      · rw [loop_succ_fatal env program fuel i errors rc art hist msg hsvc] at h
        simp only at h
        have h2 := List.append_cancel_left h
        rw [← ((List.cons.injEq ..).mp h2).1]
      · rw [loop_succ_retry env program fuel i errors rc art hist msg hsvc] at h
        obtain ⟨t, ht⟩ := loop_history_prefix env program fuel (i + 1) (errors ++ [msg])
          rc art (hist ++ [⟨requestFor program errors rc, .genRetry msg⟩])
        rw [ht] at h
        rw [List.append_assoc] at h
        have h2 := List.append_cancel_left h
        simp only [List.singleton_append] at h2
        rw [← ((List.cons.injEq ..).mp h2).1]

theorem lastCode_snoc_none (hist : List Attempt) (d : String) (e : Attempt)
    (h : codeOf e.result = none) :
    lastCode (hist ++ [e]) d = lastCode hist d := by
  simp [lastCode, List.filterMap_append, h]

theorem lastCode_snoc_some (hist : List Attempt) (d : String) (e : Attempt)
    (code : String) (h : codeOf e.result = some code) :
    lastCode (hist ++ [e]) d = code := by
  simp [lastCode, List.filterMap_append, h, List.getLastD_concat]

/-- Any two consecutive attempts recorded past the entry history: the later
attempt's request is the feedback composed from the diagnostic the earlier
attempt recorded and from the `run_code` value as of the earlier attempt's
end — the most recently extracted code of the session, fallback `d₀`. The
hypothesis `lastCode hist d₀ = runCode` ties the entry state to the entry
history; it holds trivially for a fresh session. -/
theorem loop_chain (env : Env) (program : String) (d₀ : String) :
    ∀ fuel i errors runCode artifact hist l₁ (a b : Attempt) l₂,
      hist.length ≤ l₁.length →
      lastCode hist d₀ = runCode →
      (loop env program fuel i errors runCode artifact hist).history
        = l₁ ++ a :: b :: l₂ →
      ∃ d, diagOf a.result = some d
        ∧ b.requestText = composeFeedback d (lastCode (l₁ ++ [a]) d₀) := by
  intro fuel
  induction fuel with
  | zero =>
      intro i errors rc art hist l₁ a b l₂ hle hrc h
      rw [loop_zero] at h
      have := congrArg List.length h
      simp at this
      omega
  | succ fuel ih =>
      intro i errors rc art hist l₁ a b l₂ hle hrc h
      rcases hsvc : code_from_openai (env.svc i (requestFor program errors rc)) with
        code | msg | msg
      · rcases hex : env.exec i code with _ | tb | info
        · rw [loop_succ_complete env program fuel i errors rc art hist code hsvc hex] at h
          simp only at h
          have := congrArg List.length h
          simp at this
          omega
        · rw [loop_succ_execFail env program fuel i errors rc art hist code tb hsvc hex] at h
          by_cases hcase : hist.length + 1 ≤ l₁.length
          · exact ih (i + 1) (errors ++ [tb]) code none
              (hist ++ [⟨requestFor program errors rc, .execFail code tb⟩])
              l₁ a b l₂ (by simp; omega)
              (lastCode_snoc_some hist d₀ ⟨requestFor program errors rc, .execFail code tb⟩
                code rfl) h
          · have hlen : hist.length = l₁.length := by omega
            obtain ⟨t, ht⟩ := loop_history_prefix env program fuel (i + 1) (errors ++ [tb])
              code none (hist ++ [⟨requestFor program errors rc, .execFail code tb⟩])
            rw [ht, List.append_assoc, List.singleton_append] at h
            obtain ⟨hh, htl⟩ := List.append_inj h hlen
            have ha : a = ⟨requestFor program errors rc, .execFail code tb⟩ :=
              ((List.cons.injEq ..).mp htl).1.symm
            have ht2 : t = b :: l₂ := ((List.cons.injEq ..).mp htl).2
            have hreq : b.requestText = requestFor program (errors ++ [tb]) code := by
              apply loop_new_head_request env program fuel (i + 1) (errors ++ [tb]) code none
                (hist ++ [⟨requestFor program errors rc, .execFail code tb⟩]) b l₂
              rw [ht, ht2]
            have hlast : lastCode (l₁ ++ [a]) d₀ = code := by
              rw [← hh, ha]
              exact lastCode_snoc_some hist d₀
                ⟨requestFor program errors rc, .execFail code tb⟩ code rfl
            refine ⟨tb, ?_, ?_⟩
            · rw [ha]; rfl
            · rw [hreq, requestFor_snoc, hlast]
        · rw [loop_succ_base env program fuel i errors rc art hist code info hsvc hex] at h
          simp only at h
          have := congrArg List.length h
          simp at this
          omega
      · rw [loop_succ_fatal env program fuel i errors rc art hist msg hsvc] at h
        simp only at h
        have := congrArg List.length h
        simp at this
        omega
      · rw [loop_succ_retry env program fuel i errors rc art hist msg hsvc] at h
        by_cases hcase : hist.length + 1 ≤ l₁.length
        · refine ih (i + 1) (errors ++ [msg]) rc art
            (hist ++ [⟨requestFor program errors rc, .genRetry msg⟩])
            l₁ a b l₂ (by simp; omega) ?_ h
          rw [lastCode_snoc_none hist d₀ ⟨requestFor program errors rc, .genRetry msg⟩ rfl]
          exact hrc
        · have hlen : hist.length = l₁.length := by omega
          obtain ⟨t, ht⟩ := loop_history_prefix env program fuel (i + 1) (errors ++ [msg])
            rc art (hist ++ [⟨requestFor program errors rc, .genRetry msg⟩])
          rw [ht, List.append_assoc, List.singleton_append] at h
          obtain ⟨hh, htl⟩ := List.append_inj h hlen
          have ha : a = ⟨requestFor program errors rc, .genRetry msg⟩ :=
            ((List.cons.injEq ..).mp htl).1.symm
          have ht2 : t = b :: l₂ := ((List.cons.injEq ..).mp htl).2
          have hreq : b.requestText = requestFor program (errors ++ [msg]) rc := by
            apply loop_new_head_request env program fuel (i + 1) (errors ++ [msg]) rc art
              (hist ++ [⟨requestFor program errors rc, .genRetry msg⟩]) b l₂
            rw [ht, ht2]
          have hlast : lastCode (l₁ ++ [a]) d₀ = rc := by
            rw [← hh, ha,
              lastCode_snoc_none hist d₀ ⟨requestFor program errors rc, .genRetry msg⟩ rfl]
            exact hrc
          refine ⟨msg, ?_, ?_⟩
          · rw [ha]; rfl
          · rw [hreq, requestFor_snoc, hlast]

/-! ### Claims -/

theorem code_from_openai_raises_auth (msg : String) (h : isAuthError msg = true) :
    code_from_openai (.raises msg) = .fatal authAbortMessage := by
  simp [code_from_openai, h]

theorem code_from_openai_raises_retry (msg : String) (h : isAuthError msg = false) :
    code_from_openai (.raises msg) = .retryable msg := by
  simp [code_from_openai, h]

theorem code_from_openai_returns_ok (content : Option String) (code : String)
    (h : extract (content.getD "") = .ok code) :
    code_from_openai (.returns content) = .ok code := by
  simp [code_from_openai, h]

theorem code_from_openai_returns_error (content : Option String) (d : String)
    (h : extract (content.getD "") = .error d) :
    code_from_openai (.returns content) = .retryable d := by
  simp [code_from_openai, h]

/-- Environment whose service call always raises an auth error. -/
def authEnv : Env :=
  ⟨fun _ _ => .raises "Error code: 401 - invalid api key", fun _ _ => .completes, id⟩

/-- Environment whose first attempt hits a retryable transport error and whose
second attempt returns well-formed code that runs to completion. -/
def retryEnv : Env :=
  ⟨fun i _ => match i with
    | 0 => .raises "connection reset"
    | _ => .returns (some "@@D x = 1 @@D"),
   fun _ _ => .completes, id⟩

/-- Claim C1: for every program description and every environment behaviour, a
session performs at most 5 request/extract/execute attempt cycles — the
recorded attempt history (one entry per cycle, each holding at most one
generation call, one extraction and one execution) never exceeds 5 entries
before the loop terminates in a terminal outcome. -/
theorem claim_C1 (env : Env) (program : String) :
    (main env program).history.length ≤ 5 := by
  have h := loop_history_length env program 5 0 [] "" none []
  simpa [main] using h

/-- Claim C2: whenever the generation call raises an auth/credential error, the
loop — entered with any remaining budget and any state — terminates at once in
`FatalAbort` carrying the remediation message: exactly one attempt entry is
added, it performed no execution, no error is recorded for retry, and the
artifact is untouched. -/
theorem claim_C2 (env : Env) (program : String) (fuel i : Nat) (errors : List String)
    (runCode : String) (artifact : Option String) (hist : List Attempt) (msg : String)
    (hauth : isAuthError msg = true)
    (hsvc : env.svc i (requestFor program errors runCode) = .raises msg) :
    loop env program (fuel + 1) i errors runCode artifact hist
      = ⟨.fatalAbort authAbortMessage,
          hist ++ [⟨requestFor program errors runCode, .genFatal authAbortMessage⟩],
          errors, runCode, artifact, none⟩
    ∧ executedCode (AttemptResult.genFatal authAbortMessage) = false := by
  refine ⟨?_, rfl⟩
  apply loop_succ_fatal
  rw [hsvc]
  exact code_from_openai_raises_auth msg hauth

theorem claim_C2_witness :
    loop authEnv "demo" (4 + 1) 0 [] "" none []
      = ⟨.fatalAbort authAbortMessage,
          [] ++ [⟨requestFor "demo" [] "", .genFatal authAbortMessage⟩],
          [], "", none, none⟩
    ∧ executedCode (AttemptResult.genFatal authAbortMessage) = false :=
  claim_C2 authEnv "demo" 4 0 [] "" none [] "Error code: 401 - invalid api key"
    (by decide) rfl

/-- Claim C3: for any two consecutive recorded attempts of a session, the later
attempt's request is the feedback composition built from the diagnostic text
recorded by the earlier attempt and from the session's previously extracted
code, `lastCode (l₁ ++ [a]) ""` — the code of the most recent attempt, up to
and including the earlier one, whose extraction succeeded (the loop's
`run_code`, `""` while no extraction has succeeded yet). The request embeds
that diagnostic verbatim and untruncated, embeds that code verbatim, and
carries the instruction to return the full fixed code with the same `@@D`
wrapping. -/
theorem claim_C3 (env : Env) (program : String) (l₁ : List Attempt) (a b : Attempt)
    (l₂ : List Attempt)
    (h : (main env program).history = l₁ ++ a :: b :: l₂) :
    ∃ d, diagOf a.result = some d
      ∧ b.requestText = composeFeedback d (lastCode (l₁ ++ [a]) "")
      ∧ containsVerbatim b.requestText d
      ∧ containsVerbatim b.requestText (lastCode (l₁ ++ [a]) "")
      ∧ containsVerbatim b.requestText fixInstruction := by
  obtain ⟨d, hd, hreq⟩ :=
    loop_chain env program "" 5 0 [] "" none [] l₁ a b l₂ (by simp) rfl h
  refine ⟨d, hd, hreq, ?_, ?_, ?_⟩ <;> rw [hreq]
  · exact composeFeedback_contains_error d (lastCode (l₁ ++ [a]) "")
  · exact composeFeedback_contains_code d (lastCode (l₁ ++ [a]) "")
  · exact composeFeedback_contains_instruction d (lastCode (l₁ ++ [a]) "")

theorem claim_C3_witness :
    ∃ d,
      diagOf (Attempt.mk (requestFor "p" [] "") (.genRetry "connection reset")).result
        = some d
      ∧ (Attempt.mk (composeFeedback "connection reset" "") (.execOk "x = 1")).requestText
          = composeFeedback d
              (lastCode ([] ++ [Attempt.mk (requestFor "p" [] "")
                (.genRetry "connection reset")]) "")
      ∧ containsVerbatim
          (Attempt.mk (composeFeedback "connection reset" "") (.execOk "x = 1")).requestText d
      ∧ containsVerbatim
          (Attempt.mk (composeFeedback "connection reset" "") (.execOk "x = 1")).requestText
          (lastCode ([] ++ [Attempt.mk (requestFor "p" [] "")
            (.genRetry "connection reset")]) "")
      ∧ containsVerbatim
          (Attempt.mk (composeFeedback "connection reset" "") (.execOk "x = 1")).requestText
          fixInstruction :=
  claim_C3 retryEnv "p" []
    ⟨requestFor "p" [] "", .genRetry "connection reset"⟩
    ⟨composeFeedback "connection reset" "", .execOk "x = 1"⟩ [] (by decide)

/-- Claim C4: when splitting the raw response on the literal `@@D` yields
exactly 3 segments, extraction returns the middle segment with leading and
trailing whitespace trimmed; in particular
`extract "pre@@D CODE @@D post" = ok "CODE"` (see the witness). -/
theorem claim_C4 (content : String) (h : (pySplit content "@@D").length = 3) :
    extract content = .ok (pyStrip ((pySplit content "@@D").get! 1)) := by
  simp [extract, h]

theorem claim_C4_witness :
    (pySplit "pre@@D CODE @@D post" "@@D").length = 3 ∧
    extract "pre@@D CODE @@D post" = .ok "CODE" :=
  ⟨by decide, (claim_C4 "pre@@D CODE @@D post" (by decide)).trans (by decide)⟩

/-- Claim C5: when splitting the raw response on `@@D` yields fewer than 3
segments (in particular for any input with at most one occurrence, as in the
witness), extraction raises a `ValueError` whose diagnostic contains, verbatim,
the first 500 characters of the raw response — the whole response when it is
at most 500 characters long. -/
theorem claim_C5 (content : String) (h : (pySplit content "@@D").length < 3) :
    extract content = .error (extractionErrorPrefix ++ pySlice content 500)
      ∧ containsVerbatim (extractionErrorPrefix ++ pySlice content 500)
          (pySlice content 500)
      ∧ (content.length ≤ 500 → pySlice content 500 = content) := by
  refine ⟨by simp [extract, h], ⟨extractionErrorPrefix, "", ?_⟩, ?_⟩
  · apply String.ext
    have hemp : ("" : String).data = [] := rfl
    simp [String.data_append, hemp]
  · intro hlen
    apply String.ext
    show List.take 500 content.data = content.data
    exact List.take_of_length_le hlen

theorem claim_C5_witness :
    (pySplit "abc@@Ddef" "@@D").length < 3 ∧
    (extract "abc@@Ddef" = .error (extractionErrorPrefix ++ pySlice "abc@@Ddef" 500)
      ∧ containsVerbatim (extractionErrorPrefix ++ pySlice "abc@@Ddef" 500)
          (pySlice "abc@@Ddef" 500)
      ∧ (("abc@@Ddef" : String).length ≤ 500 → pySlice "abc@@Ddef" 500 = "abc@@Ddef")) :=
  ⟨by decide, claim_C5 "abc@@Ddef" (by decide)⟩

/-- Claim C9: extraction also succeeds when splitting yields more than 3
segments (more than two `@@D` occurrences): it returns the trimmed second
segment — the text between the first and second occurrence — and raises no
error. -/
theorem claim_C9 (content : String) (h : 3 < (pySplit content "@@D").length) :
    extract content = .ok (pyStrip ((pySplit content "@@D").get! 1)) := by
  have h2 : ¬ (pySplit content "@@D").length < 3 := by omega
  simp [extract, h2]

theorem claim_C9_witness :
    3 < (pySplit "a@@D b @@Dc@@Dd" "@@D").length ∧
    extract "a@@D b @@Dc@@Dd" = .ok "b" :=
  ⟨by decide, (claim_C9 "a@@D b @@Dc@@Dd" (by decide)).trans (by decide)⟩

/-! ### Environment assumptions used by the session-shaped claims -/

/-- Every service call of the environment returns a response whose extraction
succeeds. -/
def svcAlwaysWellFormed (env : Env) : Prop :=
  ∀ i req, ∃ raw code, env.svc i req = .returns (some raw) ∧ extract raw = .ok code

/-- Every execution in the environment raises an `Exception`. -/
def execAlwaysFails (env : Env) : Prop :=
  ∀ i code, ∃ tb, env.exec i code = .raisesExc tb

/-- Attempt `i` fails retryably whatever request it is sent: a non-auth
service error, an extraction failure, or an execution failure caught by
`run_generated_code`. -/
def attemptFailsRetryably (env : Env) (i : Nat) : Prop :=
  ∀ req,
    (∃ msg, env.svc i req = .raises msg ∧ isAuthError msg = false)
    ∨ (∃ content d, env.svc i req = .returns content ∧ extract (content.getD "") = .error d)
    ∨ (∃ raw code tb, env.svc i req = .returns (some raw) ∧ extract raw = .ok code
        ∧ env.exec i code = .raisesExc tb)

/-- Attempt `i` extracts code that executes to completion, whatever request it
is sent. -/
def attemptSucceeds (env : Env) (i : Nat) : Prop :=
  ∀ req, ∃ raw code, env.svc i req = .returns (some raw) ∧ extract raw = .ok code
    ∧ env.exec i code = .completes

/-- A retryably-failing attempt is one loop step: a diagnostic is appended to
`errors`, one entry is recorded, and the loop continues. -/
theorem loop_step_retryable (env : Env) (program : String) (i : Nat)
    (h : attemptFailsRetryably env i) (fuel : Nat) (errors : List String)
    (runCode : String) (artifact : Option String) (hist : List Attempt) :
    ∃ d rc2 art2 res, diagOf res = some d
      ∧ loop env program (fuel + 1) i errors runCode artifact hist
          = loop env program fuel (i + 1) (errors ++ [d]) rc2 art2
              (hist ++ [⟨requestFor program errors runCode, res⟩]) := by
  rcases h (requestFor program errors runCode) with
    ⟨msg, h1, h2⟩ | ⟨content, d, h1, h2⟩ | ⟨raw, code, tb, h1, h2, h3⟩
  · exact ⟨msg, runCode, artifact, .genRetry msg, rfl,
      loop_succ_retry env program fuel i errors runCode artifact hist msg
        (by rw [h1]; exact code_from_openai_raises_retry msg h2)⟩
  · exact ⟨d, runCode, artifact, .genRetry d, rfl,
      loop_succ_retry env program fuel i errors runCode artifact hist d
        (by rw [h1]; exact code_from_openai_returns_error content d h2)⟩
  · exact ⟨tb, code, none, .execFail code tb, rfl,
      loop_succ_execFail env program fuel i errors runCode artifact hist code tb
        (by rw [h1]; exact code_from_openai_returns_ok (some raw) code h2) h3⟩

/-- A succeeding attempt ends the loop in `Success`, saving the (reformatted)
code as the artifact. -/
theorem loop_step_success (env : Env) (program : String) (i : Nat)
    (h : attemptSucceeds env i) (fuel : Nat) (errors : List String)
    (runCode : String) (artifact : Option String) (hist : List Attempt) :
    ∃ code, loop env program (fuel + 1) i errors runCode artifact hist
      = ⟨.success, hist ++ [⟨requestFor program errors runCode, .execOk code⟩],
          errors, code, some (env.fmt code), none⟩ := by
  obtain ⟨raw, code, h1, h2, h3⟩ := h (requestFor program errors runCode)
  exact ⟨code,
    loop_succ_complete env program fuel i errors runCode artifact hist code
      (by rw [h1]; exact code_from_openai_returns_ok (some raw) code h2) h3⟩

/-- When every attempt reaches execution and every execution fails, the loop
burns its whole budget: one error and one history entry per unit of fuel, the
artifact removed after every failed run, and the total-failure message at the
end. -/
theorem loop_all_exec_fail (env : Env) (program : String)
    (hsvc : svcAlwaysWellFormed env) (hexec : execAlwaysFails env) :
    ∀ fuel i errors runCode artifact hist,
      (loop env program fuel i errors runCode artifact hist).outcome = .exhausted
      ∧ (loop env program fuel i errors runCode artifact hist).history.length
          = hist.length + fuel
      ∧ (loop env program fuel i errors runCode artifact hist).artifact
          = (if fuel = 0 then artifact else none)
      ∧ (loop env program fuel i errors runCode artifact hist).finalMessage
          = some failureMessage
      ∧ (loop env program fuel i errors runCode artifact hist).errors.length
          = errors.length + fuel := by
  intro fuel
  induction fuel with
  | zero =>
      intro i errors rc art hist
      simp [loop_zero]
  | succ fuel ih =>
      intro i errors rc art hist
      obtain ⟨raw, code, h1, h2⟩ := hsvc i (requestFor program errors rc)
      obtain ⟨tb, h3⟩ := hexec i code
      rw [loop_succ_execFail env program fuel i errors rc art hist code tb
        (by rw [h1]; exact code_from_openai_returns_ok (some raw) code h2) h3]
      have h := ih (i + 1) (errors ++ [tb]) code none
        (hist ++ [⟨requestFor program errors rc, .execFail code tb⟩])
      obtain ⟨ho, hl, ha, hm, he⟩ := h
      refine ⟨ho, ?_, ?_, hm, ?_⟩
      · rw [hl]; simp; omega
      · rw [ha]; simp
      · rw [he]; simp; omega

/-- Environment where extraction always succeeds and every run fails. -/
def failEnv : Env :=
  ⟨fun _ _ => .returns (some "@@Dboom()@@D"),
   fun _ _ => .raisesExc "Traceback (most recent call last): boom", id⟩

/-- Environment raising a retryable transport error on every call. -/
def transientEnv : Env :=
  ⟨fun _ _ => .raises "connection timed out", fun _ _ => .completes, id⟩

/-- Environment whose first two attempts fail retryably (transport error, then
malformed response) and whose third attempt succeeds. -/
def thirdTimeEnv : Env :=
  ⟨fun i _ => match i with
    | 0 => .raises "rate limit exceeded"
    | 1 => .returns (some "no markers here")
    | _ => .returns (some "@@D pass @@D"),
   fun _ _ => .completes, id⟩

/-- Environment whose generated code raises a `BaseException` outside the
`Exception` hierarchy when run. -/
def baseExitEnv : Env :=
  ⟨fun _ _ => .returns (some "@@Dexit()@@D"), fun _ _ => .raisesBase "SystemExit", id⟩

/-- Claim C6: in a session where every attempt's execution fails, the outcome
is `ExhaustedFailure` after exactly 5 attempts, the total-failure message is
shown, and no artifact file is present afterward — it is removed after each
failed execution, including the last. -/
theorem claim_C6 (env : Env) (program : String)
    (hsvc : svcAlwaysWellFormed env) (hexec : execAlwaysFails env) :
    (main env program).outcome = .exhausted
    ∧ (main env program).history.length = 5
    ∧ (main env program).artifact = none
    ∧ (main env program).finalMessage = some failureMessage := by
  obtain ⟨ho, hl, ha, hm, _⟩ := loop_all_exec_fail env program hsvc hexec 5 0 [] "" none []
  exact ⟨ho, by simpa using hl, by simpa using ha, hm⟩

theorem claim_C6_witness :
    (main failEnv "p").outcome = .exhausted
    ∧ (main failEnv "p").history.length = 5
    ∧ (main failEnv "p").artifact = none
    ∧ (main failEnv "p").finalMessage = some failureMessage :=
  claim_C6 failEnv "p"
    (fun _ _ => ⟨"@@Dboom()@@D", "boom()", rfl, by decide⟩)
    (fun _ _ => ⟨"Traceback (most recent call last): boom", rfl⟩)

/-- Claim C7: a session whose first two attempts fail retryably and whose third
attempt's extracted code executes successfully ends in `Success` with history
length exactly 3, and the artifact holds attempt 3's extracted code (the
out-of-scope external reformatter being modelled as leaving the code
unchanged). -/
theorem claim_C7 (env : Env) (program : String)
    (h0 : attemptFailsRetryably env 0) (h1 : attemptFailsRetryably env 1)
    (h2 : attemptSucceeds env 2) (hfmt : ∀ c, env.fmt c = c) :
    (main env program).outcome = .success
    ∧ (main env program).history.length = 3
    ∧ ∃ code a₁ a₂ req, (main env program).history = [a₁, a₂, ⟨req, .execOk code⟩]
        ∧ (main env program).artifact = some code
        ∧ (main env program).runCode = code := by
  obtain ⟨d0, rc0, art0, res0, hd0, e0⟩ :=
    loop_step_retryable env program 0 h0 4 [] "" none []
  obtain ⟨d1, rc1, art1, res1, hd1, e1⟩ :=
    loop_step_retryable env program 1 h1 3 [d0] rc0 art0
      [⟨requestFor program [] "", res0⟩]
  obtain ⟨code, e2⟩ :=
    loop_step_success env program 2 h2 2 [d0, d1] rc1 art1
      [⟨requestFor program [] "", res0⟩, ⟨requestFor program [d0] rc0, res1⟩]
  have E0 : main env program
      = loop env program 4 1 [d0] rc0 art0 [⟨requestFor program [] "", res0⟩] := e0
  have E1 : loop env program 4 1 [d0] rc0 art0 [⟨requestFor program [] "", res0⟩]
      = loop env program 3 2 [d0, d1] rc1 art1
          [⟨requestFor program [] "", res0⟩, ⟨requestFor program [d0] rc0, res1⟩] := e1
  have E2 : loop env program 3 2 [d0, d1] rc1 art1
      [⟨requestFor program [] "", res0⟩, ⟨requestFor program [d0] rc0, res1⟩]
      = ⟨.success,
          [⟨requestFor program [] "", res0⟩, ⟨requestFor program [d0] rc0, res1⟩,
            ⟨requestFor program [d0, d1] rc1, .execOk code⟩],
          [d0, d1], code, some (env.fmt code), none⟩ := e2
  have hmain := (E0.trans E1).trans E2
  rw [hmain]
  refine ⟨rfl, rfl, code, ⟨requestFor program [] "", res0⟩,
    ⟨requestFor program [d0] rc0, res1⟩, requestFor program [d0, d1] rc1, rfl, ?_, rfl⟩
  simp [hfmt code]

theorem claim_C7_witness :
    (main thirdTimeEnv "p").outcome = .success
    ∧ (main thirdTimeEnv "p").history.length = 3
    ∧ ∃ code a₁ a₂ req, (main thirdTimeEnv "p").history = [a₁, a₂, ⟨req, .execOk code⟩]
        ∧ (main thirdTimeEnv "p").artifact = some code
        ∧ (main thirdTimeEnv "p").runCode = code :=
  claim_C7 thirdTimeEnv "p"
    (fun _ => Or.inl ⟨"rate limit exceeded", rfl, by decide⟩)
    (fun _ => Or.inr (Or.inl ⟨some "no markers here",
      extractionErrorPrefix ++ pySlice "no markers here" 500, rfl, by decide⟩))
    (fun _ => ⟨"@@D pass @@D", "pass", rfl, by decide, rfl⟩)
    (fun _ => rfl)

/-- Claim C8: a generation-service error that is not an auth/credential error
is classified retryable; its error text is appended to the `errors` history
and the loop continues with the next attempt instead of terminating. -/
theorem claim_C8 (env : Env) (program : String) (fuel i : Nat) (errors : List String)
    (runCode : String) (artifact : Option String) (hist : List Attempt) (msg : String)
    (hauth : isAuthError msg = false)
    (hsvc : env.svc i (requestFor program errors runCode) = .raises msg) :
    code_from_openai (.raises msg) = .retryable msg
    ∧ loop env program (fuel + 1) i errors runCode artifact hist
        = loop env program fuel (i + 1) (errors ++ [msg]) runCode artifact
            (hist ++ [⟨requestFor program errors runCode, .genRetry msg⟩]) := by
  refine ⟨code_from_openai_raises_retry msg hauth, ?_⟩
  apply loop_succ_retry
  rw [hsvc]
  exact code_from_openai_raises_retry msg hauth

theorem claim_C8_witness :
    code_from_openai (.raises "connection timed out") = .retryable "connection timed out"
    ∧ loop transientEnv "p" (4 + 1) 0 [] "" none []
        = loop transientEnv "p" 4 1 ([] ++ ["connection timed out"]) "" none
            ([] ++ [⟨requestFor "p" [] "", .genRetry "connection timed out"⟩]) :=
  claim_C8 transientEnv "p" 4 0 [] "" none [] "connection timed out" (by decide) rfl

/-- Claim C10: `run_generated_code` is total exactly for `Exception`-derived
failures — an `Exception` yields `(false, traceback)` and a clean run yields
`(true, "")` — while a `BaseException` outside the `Exception` hierarchy is
not caught: it escapes the executor and, in the loop, terminates the whole
session in a propagated outcome with no diagnostic recorded for retry and no
further attempts, however much budget remains. -/
theorem claim_C10 :
    (∀ tb, run_generated_code (.raisesExc tb) = some (false, tb))
    ∧ run_generated_code .completes = some (true, "")
    ∧ (∀ info, run_generated_code (.raisesBase info) = none)
    ∧ ∀ (env : Env) (program : String) (fuel i : Nat) (errors : List String)
        (runCode : String) (artifact : Option String) (hist : List Attempt)
        (raw code info : String),
        env.svc i (requestFor program errors runCode) = .returns (some raw) →
        extract raw = .ok code →
        env.exec i code = .raisesBase info →
        loop env program (fuel + 1) i errors runCode artifact hist
          = ⟨.propagated info,
              hist ++ [⟨requestFor program errors runCode, .execPropagate code info⟩],
              errors, code, some code, none⟩ := by
  refine ⟨fun tb => rfl, rfl, fun info => rfl, ?_⟩
  intro env program fuel i errors rc art hist raw code info h1 h2 h3
  exact loop_succ_base env program fuel i errors rc art hist code info
    (by rw [h1]; exact code_from_openai_returns_ok (some raw) code h2) h3

theorem claim_C10_witness :
    run_generated_code (.raisesExc "tb") = some (false, "tb")
    ∧ run_generated_code (.raisesBase "SystemExit") = none
    ∧ loop baseExitEnv "p" (4 + 1) 0 [] "" none []
        = ⟨.propagated "SystemExit",
            [] ++ [⟨requestFor "p" [] "", .execPropagate "exit()" "SystemExit"⟩],
            [], "exit()", some "exit()", none⟩ :=
  ⟨claim_C10.1 "tb", claim_C10.2.2.1 "SystemExit",
   claim_C10.2.2.2 baseExitEnv "p" 4 0 [] "" none [] "@@Dexit()@@D" "exit()" "SystemExit"
     rfl (by decide) rfl⟩

end SuperPythonCoder
